import Mathlib

/-!
Shallow embedding of the core of wlsunset (src/main.c) and proofs about it.

Modelling conventions:
* C `double` values are modelled as exact rationals (`Rat`).
* A double division whose denominator is zero produces NaN/Inf in IEEE
  arithmetic; every place where such a non-finite value would flow into an
  integer conversion is undefined behaviour, so division is modelled as
  `fdiv : Rat → Rat → Option Rat`, `none` standing for the non-finite case.
* A C cast from `double` to an integer type truncates toward zero and is
  undefined behaviour when the truncated value does not fit the target type;
  it is modelled as an `Option Int`.
* `assert` aborts the process on failure; a function containing an assert is
  modelled as returning `Option`, `none` standing for the abort.
* `libm`'s `pow` is transcendental, so `fill_gamma_table` is embedded
  parametrically in a function `pw : Rat → Rat → Rat` constrained by the
  `PowSpec` properties, all of which hold for the real function
  `x ^ e` and for any correctly rounded floating-point implementation of it.
* `calc_sun`, `calc_whitepoint` and `clamp` live in color_math.c, which is not
  part of src/; they are modelled from the spec where needed (`clamp`) or kept
  abstract as a parameter (`calc_sun`).
-/

namespace Wlsunset

/-- Division of C doubles: `none` models the NaN/Inf produced when the
denominator is zero (the only non-finite case arising in this program). -/
def fdiv (a b : Rat) : Option Rat :=
  if b = 0 then none else some (a / b)

/-- Truncation toward zero: the semantics of C's cast from `double` to a
signed integer type (when the value fits). -/
def ratTrunc (q : Rat) : Int :=
  if 0 ≤ q then ⌊q⌋ else -⌊-q⌋

/-- C cast of a double to `uint16_t`: truncation toward zero, undefined
behaviour (modelled as `none`) when the truncated value is not in
[0, 65535]. -/
def toUInt16 (q : Rat) : Option Int :=
  if -1 < q ∧ q < 65536 then some (ratTrunc q) else none

/-- Modelled from the spec: `clamp` from color_math.h (not in src/):
"Interpolation fraction is always clamped to [0,1]". -/
def clamp (v : Rat) : Rat := max 0 (min 1 v)

/-- `struct config` from src/main.c (the fields the core reads). -/
structure Config where
  high_temp : Int
  low_temp : Int
  duration : Int
  longitude : Rat
  latitude : Rat
deriving DecidableEq

/-- `struct sun` (absolute timestamps once `recalc_stops` has run; offsets
from a day's midnight as produced by `calc_sun`). -/
structure Sun where
  dawn : Int
  sunrise : Int
  sunset : Int
  dusk : Int
deriving DecidableEq

/-- The scheduling part of `struct context`: the configuration, the current
sun trajectory and the two ramp resampling steps. -/
structure Context where
  config : Config
  sun : Sun
  dawn_step_time : Int
  dusk_step_time : Int
deriving DecidableEq

/-- The defaults `main` initializes `ctx.config` with: high 6500 K, low
4000 K, duration −1 (sentinel: keep `calc_sun`'s own dawn/dusk), location
0/0. -/
def default_config : Config :=
  { high_temp := 6500, low_temp := 4000, duration := -1,
    longitude := 0, latitude := 0 }

/-- The `-d` option: `ctx.config.duration = strtod(optarg) * 60` (minutes to
seconds). -/
def duration_of_minutes (m : Int) : Int := m * 60

/-- `interpolate_temperature` from src/main.c: the interpolation fraction is
clamped, scaled by the temperature difference and truncated to `int`. -/
def interpolate_temperature (now start stop temp_start temp_stop : Int) : Option Int :=
  (fdiv ((now - start : Int) : Rat) ((stop - start : Int) : Rat)).map fun f =>
    temp_start + ratTrunc (((temp_stop - temp_start : Int) : Rat) * clamp f)

/-- `get_temperature` from src/main.c: the four-phase dispatch on `now`
against the sun trajectory. -/
def get_temperature (ctx : Context) (now : Int) : Option Int :=
  if now < ctx.sun.dawn then
    some ctx.config.low_temp
  else if now < ctx.sun.sunrise then
    interpolate_temperature now ctx.sun.dawn ctx.sun.sunrise
      ctx.config.low_temp ctx.config.high_temp
  else if now < ctx.sun.sunset then
    some ctx.config.high_temp
  else if now < ctx.sun.dusk then
    interpolate_temperature now ctx.sun.sunset ctx.sun.dusk
      ctx.config.high_temp ctx.config.low_temp
  else
    some ctx.config.low_temp

/-- Claim C10: `get_temperature` is total for `now ≥ dusk`: under the
schedule invariant `dawn ≤ sunrise ≤ sunset ≤ dusk`, every `now ≥ dusk`
falls through all four guards to the final `else`, which returns the Night
temperature `low_temp` — a defined value, never a failure. -/
theorem C10_total_after_dusk (ctx : Context) (now : Int)
    (h1 : ctx.sun.dawn ≤ ctx.sun.sunrise) (h2 : ctx.sun.sunrise ≤ ctx.sun.sunset)
    (h3 : ctx.sun.sunset ≤ ctx.sun.dusk) (h : ctx.sun.dusk ≤ now) :
    get_temperature ctx now = some ctx.config.low_temp := by
  unfold get_temperature
  have hd : ¬ now < ctx.sun.dawn := by omega
  have hsr : ¬ now < ctx.sun.sunrise := by omega
  have hss : ¬ now < ctx.sun.sunset := by omega
  have hdu : ¬ now < ctx.sun.dusk := by omega
  simp [hd, hsr, hss, hdu]

/-- Witness for C10 at a concrete schedule and time. -/
theorem C10_total_after_dusk_witness :
    get_temperature ⟨default_config, ⟨18000, 21600, 64800, 68400⟩, 16, 16⟩ 70000 =
      some 4000 :=
  C10_total_after_dusk ⟨default_config, ⟨18000, 21600, 64800, 68400⟩, 16, 16⟩ 70000
    (by decide) (by decide) (by decide) (by decide)

/-- Claim C1: on the ramp-down interval `sunset ≤ now < dusk` (under the
schedule invariant), the returned temperature is
`high_temp + trunc((low_temp − high_temp) · clamp((now − sunset)/(dusk − sunset)))`,
the fraction being clamped to [0,1]; in particular with `high_temp = 6500`,
`low_temp = 4000`, `dusk = sunset + 3600` and `now = sunset + 1800` the result
is exactly 5250 K. -/
theorem C1_ramp_down_interpolation (ctx : Context) (now : Int)
    (h1 : ctx.sun.dawn ≤ ctx.sun.sunset) (h2 : ctx.sun.sunrise ≤ ctx.sun.sunset)
    (hs : ctx.sun.sunset ≤ now) (hd : now < ctx.sun.dusk) :
    get_temperature ctx now =
      some (ctx.config.high_temp +
        ratTrunc (((ctx.config.low_temp - ctx.config.high_temp : Int) : Rat) *
          clamp (((now - ctx.sun.sunset : Int) : Rat) /
            ((ctx.sun.dusk - ctx.sun.sunset : Int) : Rat)))) ∧
    (ctx.config.high_temp = 6500 → ctx.config.low_temp = 4000 →
      ctx.sun.dusk = ctx.sun.sunset + 3600 → now = ctx.sun.sunset + 1800 →
      get_temperature ctx now = some 5250) := by
  have hda : ¬ now < ctx.sun.dawn := by omega
  have hsr : ¬ now < ctx.sun.sunrise := by omega
  have hss : ¬ now < ctx.sun.sunset := by omega
  have hden : ((ctx.sun.dusk - ctx.sun.sunset : Int) : Rat) ≠ 0 := by
    have : (0 : Int) < ctx.sun.dusk - ctx.sun.sunset := by omega
    exact_mod_cast this.ne'
  have hmain : get_temperature ctx now =
      some (ctx.config.high_temp +
        ratTrunc (((ctx.config.low_temp - ctx.config.high_temp : Int) : Rat) *
          clamp (((now - ctx.sun.sunset : Int) : Rat) /
            ((ctx.sun.dusk - ctx.sun.sunset : Int) : Rat)))) := by
    unfold get_temperature interpolate_temperature fdiv
    simp [hda, hsr, hss, hd, hden]
    refine ⟨_, ⟨?_, rfl⟩, rfl⟩
    push_cast at hden
    exact hden
  refine ⟨hmain, fun hh hl hdk hn => ?_⟩
  rw [hmain, hh, hl, hdk, hn]
  have hfrac : ((ctx.sun.sunset + 1800 - ctx.sun.sunset : Int) : Rat) /
      ((ctx.sun.sunset + 3600 - ctx.sun.sunset : Int) : Rat) = 1 / 2 := by
    have e1 : (ctx.sun.sunset + 1800 - ctx.sun.sunset : Int) = 1800 := by ring
    have e2 : (ctx.sun.sunset + 3600 - ctx.sun.sunset : Int) = 3600 := by ring
    rw [e1, e2]
    norm_num
  rw [hfrac]
  have hclamp : clamp (1 / 2) = 1 / 2 := by
    unfold clamp
    norm_num
  rw [hclamp]
  have : ((4000 - 6500 : Int) : Rat) * (1 / 2) = -1250 := by norm_num
  rw [this]
  have htr : ratTrunc (-1250) = -1250 := by
    unfold ratTrunc
    norm_num
  rw [htr]
  norm_num

/-- Witness for C1: a concrete schedule with sunset at 0, dusk at 3600,
queried at 1800, yields exactly 5250 K. -/
theorem C1_ramp_down_interpolation_witness :
    get_temperature ⟨⟨6500, 4000, 3600, 0, 0⟩, ⟨-46800, -43200, 0, 3600⟩, 36, 36⟩ 1800 =
      some 5250 :=
  (C1_ramp_down_interpolation
      ⟨⟨6500, 4000, 3600, 0, 0⟩, ⟨-46800, -43200, 0, 3600⟩, 36, 36⟩ 1800
      (by decide) (by decide) (by decide) (by decide)).2
    rfl rfl rfl rfl

/-- `UINT16_MAX`, the highest gamma table level. -/
def UINT16_MAX : Int := 65535

/-- Properties of `libm`'s `pow` that `fill_gamma_table` relies on, all
satisfied by the real function `x ^ e` on nonnegative bases and by any
correctly rounded floating-point implementation: monotone in the base for a
positive exponent, `0^e = 0` and `1^e = 1` for `e > 0`, and `x^1 = x`. -/
structure PowSpec (pw : Rat → Rat → Rat) : Prop where
  mono : ∀ {e x y : Rat}, 0 < e → 0 ≤ x → x ≤ y → pw x e ≤ pw y e
  zero : ∀ {e : Rat}, 0 < e → pw 0 e = 0
  one : ∀ {e : Rat}, 0 < e → pw 1 e = 1
  exp_one : ∀ x : Rat, 0 ≤ x → pw x 1 = x

/-- One entry of one channel of the table filled by `fill_gamma_table` in
src/main.c: `val = (double)i / (ramp_size - 1)` (a 0/0 NaN when
`ramp_size = 1`), then `(uint16_t)(UINT16_MAX * pow(val * w, 1.0 / gamma))`.
The three channels are this with `w` equal to `rw`, `gw` and `bw`. -/
def fill_gamma_entry (pw : Rat → Rat → Rat) (ramp_size i : Nat) (w gamma : Rat) :
    Option Int :=
  (fdiv (i : Rat) ((ramp_size - 1 : Nat) : Rat)).bind fun val =>
    (fdiv 1 gamma).bind fun e =>
      toUInt16 ((UINT16_MAX : Int) * pw (val * w) e)

/-- One channel of the gamma table: the entries for `i = 0, …, ramp_size-1`. -/
def fill_gamma_channel (pw : Rat → Rat → Rat) (ramp_size : Nat) (w gamma : Rat) :
    List (Option Int) :=
  (List.range ramp_size).map fun i => fill_gamma_entry pw ramp_size i w gamma

/-- The full `fill_gamma_table`: the red, green and blue channels, each the
same computation with its own white-point weight. -/
def fill_gamma_table (pw : Rat → Rat → Rat) (ramp_size : Nat)
    (rw gw bw gamma : Rat) :
    List (Option Int) × List (Option Int) × List (Option Int) :=
  (fill_gamma_channel pw ramp_size rw gamma,
   fill_gamma_channel pw ramp_size gw gamma,
   fill_gamma_channel pw ramp_size bw gamma)

/-- The concrete `PowSpec` instance at exponent 1: IEEE `pow(x, 1.0) = x`
exactly, so the identity in the base models `pow` when `gamma = 1`. -/
def idPow : Rat → Rat → Rat := fun x _ => x

theorem idPow_spec : PowSpec idPow where
  mono := fun _ _ h => h
  zero := fun _ => rfl
  one := fun _ => rfl
  exp_one := fun _ _ => rfl

theorem ratTrunc_eq_floor {q : Rat} (h : 0 ≤ q) : ratTrunc q = ⌊q⌋ := by
  unfold ratTrunc
  rw [if_pos h]

theorem ratTrunc_mono_of_nonneg {p q : Rat} (hp : 0 ≤ p) (hpq : p ≤ q) :
    ratTrunc p ≤ ratTrunc q := by
  rw [ratTrunc_eq_floor hp, ratTrunc_eq_floor (hp.trans hpq)]
  exact Int.floor_le_floor hpq

theorem ratTrunc_nonneg {q : Rat} (h : 0 ≤ q) : 0 ≤ ratTrunc q := by
  rw [ratTrunc_eq_floor h]
  exact Int.le_floor.mpr (by exact_mod_cast h)

theorem ratTrunc_le_of_le {q : Rat} (h0 : 0 ≤ q) (h : q ≤ 65535) :
    ratTrunc q ≤ 65535 := by
  rw [ratTrunc_eq_floor h0]
  have := Int.floor_le_floor h
  rwa [show ((65535 : Rat)) = ((65535 : Int) : Rat) by norm_num,
    Int.floor_intCast] at this

theorem fill_gamma_channel_get (pw : Rat → Rat → Rat) (N i : Nat)
    (w gamma : Rat) (hi : i < N) :
    (fill_gamma_channel pw N w gamma).get? i =
      some (fill_gamma_entry pw N i w gamma) := by
  simp [fill_gamma_channel, List.get?_eq_getElem?, List.getElem?_map,
    List.getElem?_range, hi]

/-- Evaluation of a gamma table entry when `ramp_size ≥ 2`: the entry is the
truncation of `UINT16_MAX * pow(val*w, 1/gamma)`, a rational in
[0, 65535]. -/
theorem fill_gamma_entry_eval (pw : Rat → Rat → Rat) (hpw : PowSpec pw)
    (N i : Nat) (w gamma : Rat) (hN : 2 ≤ N) (hi : i < N)
    (hw0 : 0 ≤ w) (hw1 : w ≤ 1) (hg : 0 < gamma) :
    fill_gamma_entry pw N i w gamma =
      some (ratTrunc ((65535 : Rat) *
        pw (((i : Rat) / ((N - 1 : Nat) : Rat)) * w) (1 / gamma))) ∧
    0 ≤ (65535 : Rat) * pw (((i : Rat) / ((N - 1 : Nat) : Rat)) * w) (1 / gamma) ∧
    (65535 : Rat) * pw (((i : Rat) / ((N - 1 : Nat) : Rat)) * w) (1 / gamma) ≤ 65535 := by
  have hd1 : (1 : Nat) ≤ N - 1 := by omega
  have hdpos : (0 : Rat) < ((N - 1 : Nat) : Rat) := by exact_mod_cast Nat.lt_of_lt_of_le Nat.zero_lt_one hd1
  have hdne : ((N - 1 : Nat) : Rat) ≠ 0 := hdpos.ne'
  have hgne : gamma ≠ 0 := hg.ne'
  have hval0 : (0 : Rat) ≤ (i : Rat) / ((N - 1 : Nat) : Rat) :=
    div_nonneg (by positivity) hdpos.le
  have hval1 : (i : Rat) / ((N - 1 : Nat) : Rat) ≤ 1 := by
    rw [div_le_one hdpos]
    exact_mod_cast Nat.le_sub_one_of_lt hi
  have hx0 : (0 : Rat) ≤ ((i : Rat) / ((N - 1 : Nat) : Rat)) * w :=
    mul_nonneg hval0 hw0
  have hx1 : ((i : Rat) / ((N - 1 : Nat) : Rat)) * w ≤ 1 :=
    mul_le_one₀ hval1 hw0 hw1
  have he : (0 : Rat) < 1 / gamma := by positivity
  have hp0 : (0 : Rat) ≤ pw (((i : Rat) / ((N - 1 : Nat) : Rat)) * w) (1 / gamma) := by
    have := hpw.mono he le_rfl hx0
    rwa [hpw.zero he] at this
  have hp1 : pw (((i : Rat) / ((N - 1 : Nat) : Rat)) * w) (1 / gamma) ≤ 1 := by
    have := hpw.mono he hx0 hx1
    rwa [hpw.one he] at this
  have hq0 : (0 : Rat) ≤ (65535 : Rat) *
      pw (((i : Rat) / ((N - 1 : Nat) : Rat)) * w) (1 / gamma) := by positivity
  have hq1 : (65535 : Rat) *
      pw (((i : Rat) / ((N - 1 : Nat) : Rat)) * w) (1 / gamma) ≤ 65535 := by
    nlinarith
  refine ⟨?_, hq0, hq1⟩
  unfold fill_gamma_entry fdiv
  rw [if_neg hdne, if_neg hgne]
  simp only [Option.some_bind]
  have hU : ((UINT16_MAX : Int) : Rat) = 65535 := by norm_num [UINT16_MAX]
  unfold toUInt16
  rw [hU, if_pos ⟨by linarith, by linarith⟩]

/-- Claim C2 counterexample: with `ramp_size = 1` the computed normalized
value is `0/0`, a NaN, so the single entry of the channel is undefined
behaviour rather than 0 — the claimed guarantee fails at `N = 1`. -/
theorem C2_counterexample :
    fill_gamma_entry idPow 1 0 1 1 = none ∧
    fill_gamma_entry idPow 1 0 1 1 ≠ some 0 := by
  have h : fill_gamma_entry idPow 1 0 1 1 = none := by
    norm_num [fill_gamma_entry, fdiv]
  refine ⟨h, ?_⟩
  rw [h]
  simp

/-- Claim C2 (amended to `ramp_size ≥ 2`): for every weight in [0,1], every
`gamma > 0` and every `ramp_size ≥ 2`, the channel's entries are all defined,
start at 0, never exceed `UINT16_MAX`, and are monotonically non-decreasing
in the index, because `value * w` stays in [0,1]. -/
theorem C2_channel_monotone (pw : Rat → Rat → Rat) (hpw : PowSpec pw)
    (N : Nat) (w gamma : Rat) (hN : 2 ≤ N)
    (hw0 : 0 ≤ w) (hw1 : w ≤ 1) (hg : 0 < gamma) :
    (fill_gamma_channel pw N w gamma).get? 0 = some (some 0) ∧
    (∀ i, i < N → ∃ v, fill_gamma_entry pw N i w gamma = some v ∧
      0 ≤ v ∧ v ≤ 65535) ∧
    (∀ i j vi vj, i ≤ j → j < N →
      fill_gamma_entry pw N i w gamma = some vi →
      fill_gamma_entry pw N j w gamma = some vj → vi ≤ vj) := by
  have hN0 : 0 < N := by omega
  have he : (0 : Rat) < 1 / gamma := by positivity
  refine ⟨?_, ?_, ?_⟩
  · rw [fill_gamma_channel_get pw N 0 w gamma hN0]
    have h0 := (fill_gamma_entry_eval pw hpw N 0 w gamma hN hN0 hw0 hw1 hg).1
    rw [h0]
    have : ((0 : Nat) : Rat) / ((N - 1 : Nat) : Rat) * w = 0 := by
      simp
    rw [this, hpw.zero he]
    norm_num [ratTrunc]
  · intro i hi
    obtain ⟨heq, hq0, hq1⟩ := fill_gamma_entry_eval pw hpw N i w gamma hN hi hw0 hw1 hg
    exact ⟨_, heq, ratTrunc_nonneg hq0, ratTrunc_le_of_le hq0 hq1⟩
  · intro i j vi vj hij hj hvi hvj
    have hi : i < N := Nat.lt_of_le_of_lt hij hj
    obtain ⟨heqi, hqi0, _⟩ := fill_gamma_entry_eval pw hpw N i w gamma hN hi hw0 hw1 hg
    obtain ⟨heqj, hqj0, _⟩ := fill_gamma_entry_eval pw hpw N j w gamma hN hj hw0 hw1 hg
    rw [heqi] at hvi
    rw [heqj] at hvj
    have hvi' := Option.some.inj hvi
    have hvj' := Option.some.inj hvj
    subst hvi'
    subst hvj'
    have hd1 : (1 : Nat) ≤ N - 1 := by omega
    have hdpos : (0 : Rat) < ((N - 1 : Nat) : Rat) := by
      exact_mod_cast Nat.lt_of_lt_of_le Nat.zero_lt_one hd1
    have hvalle : (i : Rat) / ((N - 1 : Nat) : Rat) ≤ (j : Rat) / ((N - 1 : Nat) : Rat) := by
      gcongr
    have hval0 : (0 : Rat) ≤ (i : Rat) / ((N - 1 : Nat) : Rat) :=
      div_nonneg (by positivity) hdpos.le
    have hxle : ((i : Rat) / ((N - 1 : Nat) : Rat)) * w ≤
        ((j : Rat) / ((N - 1 : Nat) : Rat)) * w :=
      mul_le_mul_of_nonneg_right hvalle hw0
    have hx0 : (0 : Rat) ≤ ((i : Rat) / ((N - 1 : Nat) : Rat)) * w :=
      mul_nonneg hval0 hw0
    have hple := hpw.mono he hx0 hxle
    exact ratTrunc_mono_of_nonneg hqi0 (by nlinarith)

/-- Witness for C2 at `pw = idPow` (gamma 1), `N = 3`, `w = 1`: the first
channel entry is 0. -/
theorem C2_channel_monotone_witness :
    (fill_gamma_channel idPow 3 1 1).get? 0 = some (some 0) :=
  (C2_channel_monotone idPow idPow_spec 3 1 1 (by norm_num) (by norm_num)
    (by norm_num) (by norm_num)).1

/-- Claim C4 counterexample: the builder has no `N = 1` special case — with
`ramp_size = 1` the entry computation divides 0.0 by 0.0 and the result is
undefined, for this input weight 1/2 and gamma 2. -/
theorem C4_counterexample :
    fill_gamma_entry idPow 1 0 (1 / 2) 2 = none := by
  norm_num [fill_gamma_entry, fdiv]

/-- Claim C4 (amended): the code defines `value = i / (ramp_size - 1)` with
no `N = 1` guard, so entries are well-defined only for `ramp_size ≥ 2` (for
every `gamma > 0` and weight in [0,1]); at `ramp_size = 1` the division is
0/0. -/
theorem C4_entry_defined (pw : Rat → Rat → Rat) (hpw : PowSpec pw)
    (N i : Nat) (w gamma : Rat) (hN : 2 ≤ N) (hi : i < N)
    (hw0 : 0 ≤ w) (hw1 : w ≤ 1) (hg : 0 < gamma) :
    (fill_gamma_entry pw N i w gamma).isSome := by
  rw [(fill_gamma_entry_eval pw hpw N i w gamma hN hi hw0 hw1 hg).1]
  rfl

/-- Witness for C4 at `pw = idPow`, `N = 2`, `i = 1`, `w = 1`, `gamma = 1`. -/
theorem C4_entry_defined_witness :
    (fill_gamma_entry idPow 2 1 1 1).isSome :=
  C4_entry_defined idPow idPow_spec 2 1 1 1 (by norm_num) (by norm_num)
    (by norm_num) (by norm_num) (by norm_num)

/-- Modelled from the spec: the documented rounding rule of §4.4,
`table[c][i] = round(MAX_LEVEL · (value·w_c)^(1/γ))` with C's `round()`
(half away from zero). -/
def spec_round (q : Rat) : Int :=
  if 0 ≤ q then ⌊q + 1 / 2⌋ else -⌊-q + 1 / 2⌋

/-- Claim C6 counterexample: at `ramp_size = 3`, weight 1, `gamma = 1`, the
middle entry is the truncation 32767, while the documented rule
`round(MAX_LEVEL · 0.5) = 32768`; the code truncates instead of rounding. -/
theorem C6_counterexample :
    fill_gamma_entry idPow 3 1 1 1 = some 32767 ∧
    spec_round ((65535 : Rat) * ((1 / 2) * 1)) = 32768 ∧
    (32767 : Int) ≠ 32768 := by
  refine ⟨?_, ?_, by decide⟩
  · have h := (fill_gamma_entry_eval idPow idPow_spec 3 1 1 1 (by norm_num)
      (by norm_num) (by norm_num) (by norm_num) (by norm_num)).1
    rw [h]
    norm_num [idPow, ratTrunc]
  · unfold spec_round
    rw [if_pos (by norm_num)]
    norm_num

/-- Claim C6 (amended): every entry is the truncation (not the rounding) of
`MAX_LEVEL · (value·w)^(1/γ)`; in particular at `ramp_size = 3`, weights 1
and `gamma = 1` each channel is `[0, 32767, 65535]` — the midpoint truncated
down, not `round(MAX_LEVEL/2) = 32768`. -/
theorem C6_channel_values (pw : Rat → Rat → Rat) (hpw : PowSpec pw) :
    fill_gamma_channel pw 3 1 1 = [some 0, some 32767, some 65535] ∧
    (∀ (N i : Nat) (w gamma : Rat), 2 ≤ N → i < N → 0 ≤ w → w ≤ 1 → 0 < gamma →
      fill_gamma_entry pw N i w gamma =
        some (ratTrunc ((65535 : Rat) *
          pw (((i : Rat) / ((N - 1 : Nat) : Rat)) * w) (1 / gamma)))) := by
  constructor
  · have h0 := (fill_gamma_entry_eval pw hpw 3 0 1 1 (by norm_num) (by norm_num)
      (by norm_num) (by norm_num) (by norm_num)).1
    have h1 := (fill_gamma_entry_eval pw hpw 3 1 1 1 (by norm_num) (by norm_num)
      (by norm_num) (by norm_num) (by norm_num)).1
    have h2 := (fill_gamma_entry_eval pw hpw 3 2 1 1 (by norm_num) (by norm_num)
      (by norm_num) (by norm_num) (by norm_num)).1
    have e0 : ((0 : Nat) : Rat) / ((3 - 1 : Nat) : Rat) * 1 = 0 := by norm_num
    have e1 : ((1 : Nat) : Rat) / ((3 - 1 : Nat) : Rat) * 1 = 1 / 2 := by norm_num
    have e2 : ((2 : Nat) : Rat) / ((3 - 1 : Nat) : Rat) * 1 = 1 := by norm_num
    have he1 : (1 : Rat) / 1 = 1 := by norm_num
    rw [e0, he1, hpw.zero (by norm_num : (0:Rat) < 1)] at h0
    rw [e1, he1, hpw.exp_one (1 / 2) (by norm_num)] at h1
    rw [e2, he1, hpw.one (by norm_num : (0:Rat) < 1)] at h2
    have v0 : ratTrunc ((65535 : Rat) * 0) = 0 := by norm_num [ratTrunc]
    have v1 : ratTrunc ((65535 : Rat) * (1 / 2)) = 32767 := by
      rw [ratTrunc_eq_floor (by norm_num)]
      rw [Int.floor_eq_iff]
      norm_num
    have v2 : ratTrunc ((65535 : Rat) * 1) = 65535 := by
      rw [ratTrunc_eq_floor (by norm_num)]
      rw [Int.floor_eq_iff]
      norm_num
    rw [v0] at h0
    rw [v1] at h1
    rw [v2] at h2
    show [fill_gamma_entry pw 3 0 1 1, fill_gamma_entry pw 3 1 1 1,
      fill_gamma_entry pw 3 2 1 1] = _
    rw [h0, h1, h2]
  · intro N i w gamma hN hi hw0 hw1 hg
    exact (fill_gamma_entry_eval pw hpw N i w gamma hN hi hw0 hw1 hg).1

/-- Witness for C6 at `pw = idPow`. -/
theorem C6_channel_values_witness :
    fill_gamma_channel idPow 3 1 1 = [some 0, some 32767, some 65535] :=
  (C6_channel_values idPow idPow_spec).1

/-- `anim_kelvin_step` from src/main.c. -/
def anim_kelvin_step : Int := 25

/-- The candidate day `recalc_stops` chooses (lines 277-280 of src/main.c):
today's midnight (C `%` truncates, hence `Int.tmod`), advanced by one day
only if that midnight still precedes the previous dusk. -/
def recalc_day (dusk_prev now : Int) : Int :=
  if now - Int.tmod now 86400 < dusk_prev then now - Int.tmod now 86400 + 86400
  else now - Int.tmod now 86400

/-- The day's sun offsets after the optional duration override (lines
283-288): `calc_sun` output, with dawn/dusk replaced by
`sunrise - duration` / `sunset + duration` when a duration was configured. -/
def recalc_offsets (calcSun : Rat → Rat → Int → Sun) (cfg : Config) (day : Int) :
    Sun :=
  if cfg.duration ≠ -1 then
    { calcSun cfg.longitude cfg.latitude day with
      dawn := (calcSun cfg.longitude cfg.latitude day).sunrise - cfg.duration,
      dusk := (calcSun cfg.longitude cfg.latitude day).sunset + cfg.duration }
  else calcSun cfg.longitude cfg.latitude day

/-- The recomputed absolute trajectory (lines 283-294): the candidate day's
offsets, shifted by that day's midnight. -/
def recalc_sun (calcSun : Rat → Rat → Int → Sun) (cfg : Config)
    (dusk_prev now : Int) : Sun :=
  ⟨(recalc_offsets calcSun cfg (recalc_day dusk_prev now)).dawn +
      recalc_day dusk_prev now,
   (recalc_offsets calcSun cfg (recalc_day dusk_prev now)).sunrise +
      recalc_day dusk_prev now,
   (recalc_offsets calcSun cfg (recalc_day dusk_prev now)).sunset +
      recalc_day dusk_prev now,
   (recalc_offsets calcSun cfg (recalc_day dusk_prev now)).dusk +
      recalc_day dusk_prev now⟩

/-- `recalc_stops` from src/main.c.  `calcSun` abstracts `calc_sun` from
color_math.c (not in src/): longitude, latitude and the chosen day's midnight
to offsets from that midnight.  The failing `assert(ctx->sun.dusk > now)` is
`none`; a zero temperature difference would divide by zero (undefined), also
`none` — `main` rejects that configuration up front. -/
def recalc_stops (calcSun : Rat → Rat → Int → Sun) (ctx : Context) (now : Int) :
    Option Context :=
  if now < ctx.sun.dusk then some ctx
  else if now < (recalc_sun calcSun ctx.config ctx.sun.dusk now).dusk then
    if ctx.config.high_temp - ctx.config.low_temp = 0 then none
    else
      some { ctx with
        sun := recalc_sun calcSun ctx.config ctx.sun.dusk now,
        dawn_step_time := Int.tdiv
          (((recalc_sun calcSun ctx.config ctx.sun.dusk now).sunrise -
              (recalc_sun calcSun ctx.config ctx.sun.dusk now).dawn) *
            anim_kelvin_step)
          (ctx.config.high_temp - ctx.config.low_temp),
        dusk_step_time := Int.tdiv
          (((recalc_sun calcSun ctx.config ctx.sun.dusk now).dusk -
              (recalc_sun calcSun ctx.config ctx.sun.dusk now).sunset) *
            anim_kelvin_step)
          (ctx.config.high_temp - ctx.config.low_temp) }
  else none

/-- `update_timer` from src/main.c: asserts `now < dusk` on entry and
`deadline > now` before arming; a failing assert is `none`; otherwise the
armed absolute deadline is returned. -/
def update_timer (ctx : Context) (now : Int) : Option Int :=
  if now < ctx.sun.dusk then
    let deadline :=
      if now < ctx.sun.dawn then ctx.sun.dawn
      else if now < ctx.sun.sunrise then now + ctx.dawn_step_time
      else if now < ctx.sun.sunset then ctx.sun.sunset
      else now + ctx.dusk_step_time
    if now < deadline then some deadline else none
  else none

/-- The per-output state `set_temperature` inspects: the id, whether the
gamma control capability is live (`gamma_control != NULL`) and whether a
table buffer exists (`table_fd != -1`). -/
structure Output where
  id : Nat
  gamma_control : Bool
  table_fd : Bool
deriving DecidableEq

/-- `set_temperature` from src/main.c: for every output whose gamma control
and table are live, fill its table and submit it; outputs without a live
capability are skipped.  A submission is recorded as (output id, temperature
pushed). -/
def set_temperature (outputs : List Output) (temp : Int) : List (Nat × Int) :=
  (outputs.filter fun o => o.gamma_control && o.table_fd).map fun o => (o.id, temp)

/-- The mutable state of `main`'s event loop: the scheduling context, the
last computed temperature `temp`, the last pushed temperature `old_temp`,
the `new_output` flag and the output list. -/
structure LoopState where
  ctx : Context
  temp : Int
  old_temp : Int
  new_output : Bool
  outputs : List Output
deriving DecidableEq

/-- One iteration of `main`'s event loop (lines 514-531 of src/main.c) after
`display_dispatch` returns: on a timer tick, recompute the schedule, rearm
the timer and push only if the temperature changed; otherwise, if a new
output appeared, push the current temperature.  Returns the submissions
issued and the successor state; `none` models an aborted assert. -/
def loop_step (calcSun : Rat → Rat → Int → Sun) (timer_fired : Bool) (now : Int)
    (s : LoopState) : Option (List (Nat × Int) × LoopState) :=
  if timer_fired then
    (recalc_stops calcSun s.ctx now).bind fun ctx1 =>
      (update_timer ctx1 now).bind fun _ =>
        (get_temperature ctx1 now).map fun t =>
          if t ≠ s.old_temp then
            (set_temperature s.outputs t,
              { s with ctx := ctx1, temp := t, old_temp := t, new_output := false })
          else
            ([], { s with ctx := ctx1, temp := t })
  else if s.new_output then
    some (set_temperature s.outputs s.temp, { s with new_output := false })
  else
    some ([], s)

/-- Modelled from the spec: one concrete admissible behaviour of `calc_sun`
(color_math.c is not in src/) — offsets from the day's midnight with
`dawn < sunrise < sunset < dusk` inside the day: dawn 05:33, sunrise 06:00,
sunset 18:00, dusk 19:26 UTC. -/
def exCalcSun : Rat → Rat → Int → Sun := fun _ _ _ => ⟨20000, 21600, 64800, 70000⟩

/-- Whenever `recalc_stops` returns (rather than aborting), the resulting
dusk is strictly in the future and the configuration is untouched. -/
theorem recalc_stops_dusk (calcSun : Rat → Rat → Int → Sun)
    (ctx ctx2 : Context) (now : Int)
    (h : recalc_stops calcSun ctx now = some ctx2) :
    now < ctx2.sun.dusk ∧ ctx2.config = ctx.config := by
  unfold recalc_stops at h
  split at h
  · cases h
    exact ⟨by assumption, rfl⟩
  · split at h
    · split at h
      · exact absurd h (by simp)
      · cases h
        exact ⟨by assumption, rfl⟩
    · exact absurd h (by simp)

/-- Claim C3 counterexample: from the initial state (`sun = {0}`, so the
previous dusk is the epoch) at 22:13 into a day, the single candidate day is
today's midnight, the recomputed dusk (19:26 today) is already in the past,
and `assert(ctx->sun.dusk > now)` fails — there is no walking forward until
the invariant holds. -/
theorem C3_counterexample :
    recalc_stops exCalcSun ⟨default_config, ⟨0, 0, 0, 0⟩, 0, 0⟩ 80000 = none := by
  rfl

/-- Claim C3 (amended): recomputation is a no-op while `now < dusk`; when it
runs it tries one candidate day — today's midnight, advanced by one day only
when that midnight still precedes the previous dusk — and asserts
`dusk > now` without retrying.  In the steady case (the previous dusk lies
after today's midnight and the chosen day's dusk offset is nonnegative) the
assert holds and the recomputed dusk is strictly in the future. -/
theorem C3_recalc_single_candidate (calcSun : Rat → Rat → Int → Sun)
    (ctx : Context) (now : Int)
    (hnow : 0 ≤ now) (hdiff : ctx.config.high_temp ≠ ctx.config.low_temp) :
    (now < ctx.sun.dusk → recalc_stops calcSun ctx now = some ctx) ∧
    (ctx.sun.dusk ≤ now → now - Int.tmod now 86400 < ctx.sun.dusk →
      0 ≤ (recalc_offsets calcSun ctx.config (now - Int.tmod now 86400 + 86400)).dusk →
      ∃ ctx2, recalc_stops calcSun ctx now = some ctx2 ∧ now < ctx2.sun.dusk) := by
  constructor
  · intro h
    unfold recalc_stops
    rw [if_pos h]
  · intro ht hday hoff
    have htm : Int.tmod now 86400 < 86400 := by
      rw [Int.tmod_eq_emod hnow (by norm_num)]
      exact Int.emod_lt_of_pos now (by norm_num)
    have htm0 : 0 ≤ Int.tmod now 86400 := by
      rw [Int.tmod_eq_emod hnow (by norm_num)]
      exact Int.emod_nonneg now (by norm_num)
    have hdayeq : recalc_day ctx.sun.dusk now = now - Int.tmod now 86400 + 86400 := by
      unfold recalc_day
      rw [if_pos hday]
    have htd : ctx.config.high_temp - ctx.config.low_temp ≠ 0 := by
      intro hc
      exact hdiff (by omega)
    have hdd : (recalc_sun calcSun ctx.config ctx.sun.dusk now).dusk =
        (recalc_offsets calcSun ctx.config (recalc_day ctx.sun.dusk now)).dusk +
          recalc_day ctx.sun.dusk now := rfl
    have hdusk : now < (recalc_sun calcSun ctx.config ctx.sun.dusk now).dusk := by
      rw [hdd, hdayeq]
      omega
    refine ⟨{ ctx with
        sun := recalc_sun calcSun ctx.config ctx.sun.dusk now,
        dawn_step_time := Int.tdiv
          (((recalc_sun calcSun ctx.config ctx.sun.dusk now).sunrise -
              (recalc_sun calcSun ctx.config ctx.sun.dusk now).dawn) *
            anim_kelvin_step)
          (ctx.config.high_temp - ctx.config.low_temp),
        dusk_step_time := Int.tdiv
          (((recalc_sun calcSun ctx.config ctx.sun.dusk now).dusk -
              (recalc_sun calcSun ctx.config ctx.sun.dusk now).sunset) *
            anim_kelvin_step)
          (ctx.config.high_temp - ctx.config.low_temp) }, ?_, hdusk⟩
    unfold recalc_stops
    rw [if_neg (not_lt.mpr ht), if_pos hdusk, if_neg htd]

/-- Witness for C3 in the steady case: previous dusk shortly after today's
midnight, `now` later the same day; recomputation succeeds with a future
dusk. -/
theorem C3_recalc_single_candidate_witness :
    ∃ ctx2, recalc_stops exCalcSun
        ⟨default_config, ⟨18000, 21600, 64800, 87000⟩, 16, 16⟩ 90000 =
        some ctx2 ∧ 90000 < ctx2.sun.dusk :=
  (C3_recalc_single_candidate exCalcSun
      ⟨default_config, ⟨18000, 21600, 64800, 87000⟩, 16, 16⟩ 90000
      (by decide) (by decide)).2
    (by decide) (by decide) (by decide)

/-- Claim C5 counterexample: `main` initializes `duration = -1` (not 60
minutes); with that default the recomputed dawn keeps `calc_sun`'s own dawn
(here 20000 = 05:33) instead of `sunrise - 3600` (18000 = 05:00). -/
theorem C5_counterexample :
    default_config.duration = -1 ∧
    default_config.duration ≠ 60 * 60 ∧
    recalc_stops exCalcSun ⟨default_config, ⟨0, 0, 0, 0⟩, 0, 0⟩ 0 =
      some ⟨default_config, ⟨20000, 21600, 64800, 70000⟩, 16, 52⟩ ∧
    (20000 : Int) ≠ 21600 - 3600 := by
  exact ⟨rfl, by decide, by rfl, by decide⟩

/-- Claim C5 (amended): the duration defaults to the sentinel −1, which means
"keep `calc_sun`'s own dawn and dusk"; only when a duration was configured
(`-d`, minutes × 60) does every successful recomputation satisfy
`dawn = sunrise - duration` and `dusk = sunset + duration`. -/
theorem C5_duration_boundaries (calcSun : Rat → Rat → Int → Sun)
    (ctx ctx2 : Context) (now : Int)
    (hdur : ctx.config.duration ≠ -1)
    (htrig : ctx.sun.dusk ≤ now)
    (h : recalc_stops calcSun ctx now = some ctx2) :
    ctx2.sun.dawn = ctx2.sun.sunrise - ctx.config.duration ∧
    ctx2.sun.dusk = ctx2.sun.sunset + ctx.config.duration ∧
    default_config.duration = -1 := by
  have hodawn : (recalc_offsets calcSun ctx.config (recalc_day ctx.sun.dusk now)).dawn =
      (recalc_offsets calcSun ctx.config (recalc_day ctx.sun.dusk now)).sunrise -
        ctx.config.duration := by
    unfold recalc_offsets
    rw [if_pos hdur]
  have hodusk : (recalc_offsets calcSun ctx.config (recalc_day ctx.sun.dusk now)).dusk =
      (recalc_offsets calcSun ctx.config (recalc_day ctx.sun.dusk now)).sunset +
        ctx.config.duration := by
    unfold recalc_offsets
    rw [if_pos hdur]
  have e1 : (recalc_sun calcSun ctx.config ctx.sun.dusk now).dawn =
      (recalc_offsets calcSun ctx.config (recalc_day ctx.sun.dusk now)).dawn +
        recalc_day ctx.sun.dusk now := rfl
  have e2 : (recalc_sun calcSun ctx.config ctx.sun.dusk now).sunrise =
      (recalc_offsets calcSun ctx.config (recalc_day ctx.sun.dusk now)).sunrise +
        recalc_day ctx.sun.dusk now := rfl
  have e3 : (recalc_sun calcSun ctx.config ctx.sun.dusk now).sunset =
      (recalc_offsets calcSun ctx.config (recalc_day ctx.sun.dusk now)).sunset +
        recalc_day ctx.sun.dusk now := rfl
  have e4 : (recalc_sun calcSun ctx.config ctx.sun.dusk now).dusk =
      (recalc_offsets calcSun ctx.config (recalc_day ctx.sun.dusk now)).dusk +
        recalc_day ctx.sun.dusk now := rfl
  unfold recalc_stops at h
  rw [if_neg (not_lt.mpr htrig)] at h
  split at h
  · split at h
    · exact absurd h (by simp)
    · cases h
      refine ⟨?_, ?_, rfl⟩
      · dsimp only
        omega
      · dsimp only
        omega
  · exact absurd h (by simp)

/-- Witness for C5 with a configured duration of 3600 s. -/
theorem C5_duration_boundaries_witness :
    (18000 : Int) = 21600 - 3600 ∧ (68400 : Int) = 64800 + 3600 ∧
      default_config.duration = -1 :=
  by
    have h := C5_duration_boundaries exCalcSun
      ⟨⟨6500, 4000, 3600, 0, 0⟩, ⟨0, 0, 0, 0⟩, 0, 0⟩
      ⟨⟨6500, 4000, 3600, 0, 0⟩, ⟨18000, 21600, 64800, 68400⟩, 36, 36⟩ 0
      (by decide) (by decide) (by rfl)
    simpa using h

/-- A Day-phase scheduling context shared by several concrete instances:
dawn 05:00, sunrise 06:00, sunset 18:00, dusk 19:00, ramp steps 16 s. -/
def exCtxDay : Context := ⟨default_config, ⟨18000, 21600, 64800, 68400⟩, 16, 16⟩

/-- Claim C9 counterexample: with `-d 1` (duration 60 s) the ramp window is
60 s while the temperature difference is 2500 K, so
`dawn_step_time = 60·25/2500 = 0`; at `now = dawn` the computed deadline is
`now + 0 = now`, there is no `[MIN_SLEEP, MAX_SLEEP]` clamp to rescue it, and
`assert(deadline > now)` fails even though `high_temp ≠ low_temp`. -/
theorem C9_counterexample :
    recalc_stops exCalcSun ⟨⟨6500, 4000, 60, 0, 0⟩, ⟨0, 0, 0, 0⟩, 0, 0⟩ 0 =
      some ⟨⟨6500, 4000, 60, 0, 0⟩, ⟨21540, 21600, 64800, 64860⟩, 0, 0⟩ ∧
    update_timer ⟨⟨6500, 4000, 60, 0, 0⟩, ⟨21540, 21600, 64800, 64860⟩, 0, 0⟩ 21540 =
      none := by
  exact ⟨rfl, rfl⟩

/-- Claim C9 (amended): the deadline is the next phase boundary in
Night/Day (dawn, resp. sunset) and `now + step_time` during the ramps, where
`step_time = window · 25 / temp_diff` with truncating integer division and no
clamp to any `[MIN_SLEEP, MAX_SLEEP]` range; under `now < dusk` the deadline
exceeds `now` provided both step times are positive — which `high_temp ≠
low_temp` alone does not guarantee. -/
theorem C9_deadline (ctx : Context) (now : Int)
    (h1 : ctx.sun.dawn ≤ ctx.sun.sunrise) (h2 : ctx.sun.sunrise ≤ ctx.sun.sunset)
    (hnd : now < ctx.sun.dusk)
    (hu : 0 < ctx.dawn_step_time) (hv : 0 < ctx.dusk_step_time) :
    ∃ d, update_timer ctx now = some d ∧ now < d ∧
      (now < ctx.sun.dawn → d = ctx.sun.dawn) ∧
      (ctx.sun.dawn ≤ now → now < ctx.sun.sunrise → d = now + ctx.dawn_step_time) ∧
      (ctx.sun.sunrise ≤ now → now < ctx.sun.sunset → d = ctx.sun.sunset) ∧
      (ctx.sun.sunset ≤ now → d = now + ctx.dusk_step_time) := by
  unfold update_timer
  rw [if_pos hnd]
  by_cases c1 : now < ctx.sun.dawn
  · rw [if_pos c1]
    refine ⟨ctx.sun.dawn, ?_, c1, fun _ => rfl, ?_, ?_, ?_⟩ <;> intros <;> first
      | rw [if_pos c1] | omega
  · rw [if_neg c1]
    by_cases c2 : now < ctx.sun.sunrise
    · rw [if_pos c2]
      have hlt : now < now + ctx.dawn_step_time := by omega
      rw [if_pos hlt]
      exact ⟨_, rfl, hlt, fun hc => absurd hc c1, fun _ _ => rfl,
        fun hc _ => absurd c2 (not_lt.mpr hc), fun hc => by omega⟩
    · rw [if_neg c2]
      by_cases c3 : now < ctx.sun.sunset
      · rw [if_pos c3]
        have hlt : now < ctx.sun.sunset := c3
        rw [if_pos hlt]
        exact ⟨_, rfl, hlt, fun hc => absurd hc c1, fun _ hc => absurd hc c2,
          fun _ _ => rfl, fun hc => by omega⟩
      · rw [if_neg c3]
        have hlt : now < now + ctx.dusk_step_time := by omega
        rw [if_pos hlt]
        exact ⟨_, rfl, hlt, fun hc => absurd hc c1, fun _ hc => absurd hc c2,
          fun _ hc => absurd hc c3, fun _ => rfl⟩

/-- Witness for C9 in the Day phase: the deadline is the sunset boundary. -/
theorem C9_deadline_witness :
    update_timer exCtxDay 40000 = some 64800 := by
  obtain ⟨d, hsome, hgt, _, _, hday, _⟩ :=
    C9_deadline exCtxDay 40000 (by decide) (by decide) (by decide)
      (by decide) (by decide)
  rw [hday (by decide) (by decide)] at hsome
  exact hsome

/-- Two ready outputs: id 1 was discovered at startup and already holds the
correct curve; id 2 became ready afterwards (its `gamma_size` event set
`new_output`). -/
def exOutputs : List Output := [⟨1, true, true⟩, ⟨2, true, true⟩]

/-- Claim C7 counterexample: in steady state (`temp = old_temp = 5000`) with
`new_output` raised by freshly readied output 2, the next iteration submits
to BOTH outputs — `set_temperature` walks every live output, including
output 1 whose curve is already correct, contradicting the claimed "no
submission to the outputs that already hold the correct curve". -/
theorem C7_counterexample :
    loop_step exCalcSun false 40000 ⟨exCtxDay, 5000, 5000, true, exOutputs⟩ =
      some ([(1, 5000), (2, 5000)], ⟨exCtxDay, 5000, 5000, false, exOutputs⟩) ∧
    ((1 : Nat), (5000 : Int)) ∈ [((1 : Nat), (5000 : Int)), (2, 5000)] := by
  exact ⟨rfl, by simp⟩

/-- Claim C7 (amended): when `new_output` is set and no timer fired, the next
iteration pushes the currently active temperature `temp` — no new temperature
is computed — to EVERY output with a live gamma control and table, the fresh
one included; already-correct outputs are re-submitted too, not skipped. -/
theorem C7_new_output_push (calcSun : Rat → Rat → Int → Sun) (now : Int)
    (s : LoopState) (hno : s.new_output = true) :
    loop_step calcSun false now s =
      some (set_temperature s.outputs s.temp, { s with new_output := false }) ∧
    ∀ o ∈ s.outputs, o.gamma_control = true → o.table_fd = true →
      (o.id, s.temp) ∈ set_temperature s.outputs s.temp := by
  constructor
  · simp [loop_step, hno]
  · intro o hmem hgc htf
    unfold set_temperature
    rw [List.mem_map]
    refine ⟨o, ?_, rfl⟩
    rw [List.mem_filter]
    exact ⟨hmem, by rw [hgc, htf]; rfl⟩

/-- Witness for C7: the two-output steady state. -/
theorem C7_new_output_push_witness :
    loop_step exCalcSun false 40000 ⟨exCtxDay, 5000, 5000, true, exOutputs⟩ =
      some (set_temperature exOutputs 5000,
        { ctx := exCtxDay, temp := 5000, old_temp := 5000, new_output := false,
          outputs := exOutputs }) :=
  (C7_new_output_push exCalcSun 40000 ⟨exCtxDay, 5000, 5000, true, exOutputs⟩ rfl).1

/-- Claim C8: a timer tick is idempotent — if a tick at `now` produced state
`s2`, a second consecutive tick at the same `now` with the unchanged output
set issues zero submissions and leaves the state fixed; moreover the first
tick's submissions were nonempty only because the computed temperature
differed from the last pushed one. -/
theorem C8_idempotent_tick (calcSun : Rat → Rat → Int → Sun) (now : Int)
    (s s2 : LoopState) (subs : List (Nat × Int))
    (h : loop_step calcSun true now s = some (subs, s2)) :
    loop_step calcSun true now s2 = some ([], s2) ∧
    (subs ≠ [] → ∃ t, get_temperature s2.ctx now = some t ∧ t ≠ s.old_temp) := by
  unfold loop_step at h
  rw [if_pos rfl] at h
  cases hrc : recalc_stops calcSun s.ctx now with
  | none => rw [hrc] at h; exact absurd h (by simp)
  | some ctx1 =>
    rw [hrc] at h
    simp only [Option.some_bind] at h
    cases hut : update_timer ctx1 now with
    | none => rw [hut] at h; exact absurd h (by simp)
    | some dl =>
      rw [hut] at h
      simp only [Option.some_bind] at h
      cases hgt : get_temperature ctx1 now with
      | none => rw [hgt] at h; exact absurd h (by simp)
      | some t =>
        rw [hgt] at h
        simp only [Option.map_some'] at h
        have hdusk : now < ctx1.sun.dusk :=
          (recalc_stops_dusk calcSun s.ctx ctx1 now hrc).1
        have hrc2 : recalc_stops calcSun ctx1 now = some ctx1 := by
          unfold recalc_stops
          rw [if_pos hdusk]
        by_cases hne : t = s.old_temp
        · rw [if_neg (fun hc => hc hne)] at h
          injection h with h1
          injection h1 with hsubs hs2
          constructor
          · rw [← hs2]
            unfold loop_step
            rw [if_pos rfl]
            dsimp only
            rw [hrc2]
            simp only [Option.some_bind]
            rw [hut]
            simp only [Option.some_bind]
            rw [hgt]
            simp only [Option.map_some']
            rw [if_neg (fun hc => hc hne)]
          · intro hcon
            exact absurd hsubs.symm hcon
        · rw [if_pos hne] at h
          injection h with h1
          injection h1 with hsubs hs2
          constructor
          · rw [← hs2]
            unfold loop_step
            rw [if_pos rfl]
            dsimp only
            rw [hrc2]
            simp only [Option.some_bind]
            rw [hut]
            simp only [Option.some_bind]
            rw [hgt]
            simp only [Option.map_some']
            rw [if_neg (by simp)]
          · intro _
            refine ⟨t, ?_, hne⟩
            rw [← hs2]
            exact hgt

/-- Witness for C8: after a Day-phase tick has pushed 6500 K, repeating the
tick at the same instant issues no submission and fixes the state. -/
theorem C8_idempotent_tick_witness :
    loop_step exCalcSun true 40000 ⟨exCtxDay, 6500, 6500, false, exOutputs⟩ =
      some ([], ⟨exCtxDay, 6500, 6500, false, exOutputs⟩) :=
  (C8_idempotent_tick exCalcSun 40000 ⟨exCtxDay, 4000, 4000, false, exOutputs⟩
    ⟨exCtxDay, 6500, 6500, false, exOutputs⟩ [(1, 6500), (2, 6500)] rfl).1

end Wlsunset
